import Mathlib

/-!
Shallow embedding of `atcociftogtfs/atcocif.py` (ATCO-CIF to GTFS converter).
Python strings are modelled as Lean `String`, Python slicing as `pySlice`,
the sqlite tables as Lean lists of rows in insertion order, and the mutable
`atcocif` object as an explicit state record threaded through every handler.
A Python exception escaping a handler is modelled as `Except.error` carrying
the state at the moment the exception is raised (sqlite mutations already
performed on the shared connection stay visible, as in the source).
-/

namespace Atco

/-- Python slice `s[a:b]` (clamped, never raises). -/
def pySlice (s : String) (a b : Nat) : String :=
  ⟨(s.data.drop a).take (b - a)⟩

/-- Python slice `s[a:]`. -/
def pySliceFrom (s : String) (a : Nat) : String :=
  ⟨s.data.drop a⟩

/-- Python indexing `s[i]` as a one-character string; the call sites in the
source guard the length so the out-of-range case is unreachable there. -/
def pyAt (s : String) (i : Nat) : String :=
  pySlice s i (i + 1)

/-- Python `len(s)`. -/
def pyLen (s : String) : Nat := s.data.length

/-- Python `s.startswith(pre)` (character-list based so that proofs can
evaluate it). -/
def pyStarts (s pre : String) : Bool := pre.data.isPrefixOf s.data

def isPySpace (c : Char) : Bool :=
  c = ' ' ∨ c = '\t' ∨ c = '\n' ∨ c = '\r' ∨ c = '\x0b' ∨ c = '\x0c'

/-- Python `s.strip()`. -/
def pyStrip (s : String) : String :=
  ⟨((s.data.dropWhile isPySpace).reverse.dropWhile isPySpace).reverse⟩

def digitVal (c : Char) : Nat := c.toNat - '0'.toNat

def digitsToNat : List Char → Nat → Nat
  | [], acc => acc
  | c :: cs, acc => digitsToNat cs (acc * 10 + digitVal c)

/-- Python `int(s)`: optional surrounding whitespace and sign, then digits. -/
def pyInt? (s : String) : Option Int :=
  let t := (pyStrip s).data
  match t with
  | [] => none
  | '-' :: rest => if rest ≠ [] ∧ rest.all Char.isDigit
      then some (-(digitsToNat rest 0 : Int)) else none
  | '+' :: rest => if rest ≠ [] ∧ rest.all Char.isDigit
      then some (digitsToNat rest 0 : Int) else none
  | _ => if t.all Char.isDigit then some (digitsToNat t 0 : Int) else none

/-- Python `min(a, b)` on ints (spelled out so proofs can evaluate it). -/
def pyMin (a b : Int) : Int := if a ≤ b then a else b

/-- Model of `"{:02d}".format(n)` for the Python ints reaching the time formatter. -/
def fmt02 (n : Int) : String :=
  if 0 ≤ n ∧ n < 10 then "0" ++ toString n else toString n

def pad2 (n : Nat) : String := if n < 10 then "0" ++ toString n else toString n

def pad4 (n : Nat) : String :=
  if n < 10 then "000" ++ toString n
  else if n < 100 then "00" ++ toString n
  else if n < 1000 then "0" ++ toString n
  else toString n

/-! ### Proleptic Gregorian dates

`datetime` values are modelled as day numbers (`dnOf y m d`, a rata-die count
with `dnOf 1970 1 1 = 719468`); `weekday` follows Python (Monday = 0). -/

def isLeap (y : Nat) : Bool := (y % 4 = 0 ∧ y % 100 ≠ 0) ∨ y % 400 = 0

def daysInMonth (y m : Nat) : Nat :=
  if m = 2 then (if isLeap y then 29 else 28)
  else if m = 4 ∨ m = 6 ∨ m = 9 ∨ m = 11 then 30
  else 31

/-- Day number of a civil date (days-from-civil, shifted to stay in `Nat`). -/
def dnOf (y m d : Nat) : Nat :=
  let y' := if m ≤ 2 then y - 1 else y
  let era := y' / 400
  let yoe := y' % 400
  let mp := if 2 < m then m - 3 else m + 9
  let doy := (153 * mp + 2) / 5 + (d - 1)
  let doe := yoe * 365 + yoe / 4 - yoe / 100 + doy
  era * 146097 + doe

/-- Civil date of a day number (civil-from-days). -/
def civilFromDn (z : Nat) : Nat × Nat × Nat :=
  let era := z / 146097
  let doe := z % 146097
  let yoe := (doe - doe / 1460 + doe / 36524 - doe / 146096) / 365
  let y := yoe + era * 400
  let doy := doe - (365 * yoe + yoe / 4 - yoe / 100)
  let mp := (5 * doy + 2) / 153
  let d := doy - (153 * mp + 2) / 5 + 1
  let m := if mp < 10 then mp + 3 else mp - 9
  if m ≤ 2 then (y + 1, m, d) else (y, m, d)

/-- Python `datetime.weekday()`: Monday = 0 .. Sunday = 6. -/
def weekday (dn : Nat) : Nat := (dn + 2) % 7

/-- Model of `datetime.strftime("%Y%m%d")` of a day number. -/
def fmtDate (dn : Nat) : String :=
  let c := civilFromDn dn
  pad4 c.1 ++ pad2 c.2.1 ++ pad2 c.2.2

/-- Model of `datetime.strptime(s, "%Y%m%d")`: `none` models the `ValueError`. -/
def parseDate8 (s : String) : Option Nat :=
  if pyLen s = 8 ∧ s.data.all Char.isDigit then
    let y := digitsToNat (s.data.take 4) 0
    let m := digitsToNat ((s.data.drop 4).take 2) 0
    let d := digitsToNat (s.data.drop 6) 0
    if 1 ≤ y ∧ 1 ≤ m ∧ m ≤ 12 ∧ 1 ≤ d ∧ d ≤ daysInMonth y m then
      some (dnOf y m d)
    else none
  else none

/-! ### Sorting and Python list utilities -/

/-- Python `a < b` on strings: lexicographic on code points. -/
def strLtL : List Char → List Char → Bool
  | [], [] => false
  | [], _ :: _ => true
  | _ :: _, [] => false
  | a :: as, b :: bs =>
      if a.toNat < b.toNat then true
      else if b.toNat < a.toNat then false
      else strLtL as bs

def pyStrLt (a b : String) : Bool := strLtL a.data b.data

/-- Python comparison `[date, action] <= [date', action']` on the pairs used
for `calendar_dates` entries (lexicographic: string, then int). -/
def pairLe (a b : String × Nat) : Bool :=
  pyStrLt a.1 b.1 || (decide (a.1 = b.1) && decide (a.2 ≤ b.2))

def insertPairBy (le : String × Nat → String × Nat → Bool)
    (x : String × Nat) : List (String × Nat) → List (String × Nat)
  | [] => [x]
  | y :: ys => if le x y then x :: y :: ys else y :: insertPairBy le x ys

/-- A stable sort; `pairLe` is a total order, so this agrees with Python's
`list.sort()` on these pairs. -/
def sortPairsBy (le : String × Nat → String × Nat → Bool) :
    List (String × Nat) → List (String × Nat)
  | [] => []
  | x :: xs => insertPairBy le x (sortPairsBy le xs)

def sortPairsAsc : List (String × Nat) → List (String × Nat) :=
  sortPairsBy pairLe

/-- sqlite `ORDER BY date DESC, exception_type DESC`. -/
def sortPairsDesc : List (String × Nat) → List (String × Nat) :=
  sortPairsBy (fun a b => pairLe b a)

def dedupAdjacent : List (String × Nat) → Option (String × Nat) →
    List (String × Nat)
  | [], _ => []
  | x :: xs, last =>
      if some x = last then dedupAdjacent xs last
      else x :: dedupAdjacent xs (some x)

/-- Model of `atcocif._unique_list`: in-place ascending sort, then a single
adjacent-compare pass keeping the first of each run of equal parts. -/
def unique_list (l : List (String × Nat)) : List (String × Nat) :=
  dedupAdjacent (sortPairsAsc l) none

/-- Association-list lookup (Python `dict[k]`, first match; keys are unique
at every call site). -/
def lookupA {κ α : Type} [DecidableEq κ] (k : κ) :
    List (κ × α) → Option α
  | [] => none
  | (k', v) :: rest => if k' = k then some v else lookupA k rest

/-- Python `dict[k] = f(dict.get(k, dflt))` preserving insertion order. -/
def setA {κ α : Type} [DecidableEq κ] (k : κ) (dflt : α) (f : α → α) :
    List (κ × α) → List (κ × α)
  | [] => [(k, f dflt)]
  | (k', v) :: rest =>
      if k' = k then (k', f v) :: rest else (k', v) :: setA k dflt f rest

/-- Model of `urllib.parse.quote_plus` with its default safe set: UTF-8 bytes other
than letters, digits, `_.-~` are percent-encoded, spaces become `+`. -/
def hexDigitUpper (n : Nat) : Char :=
  if n < 10 then Char.ofNat ('0'.toNat + n) else Char.ofNat ('A'.toNat + n - 10)

def utf8Bytes (c : Char) : List Nat :=
  let n := c.toNat
  if n < 0x80 then [n]
  else if n < 0x800 then [0xC0 + n / 0x40, 0x80 + n % 0x40]
  else if n < 0x10000 then
    [0xE0 + n / 0x1000, 0x80 + n / 0x40 % 0x40, 0x80 + n % 0x40]
  else
    [0xF0 + n / 0x40000, 0x80 + n / 0x1000 % 0x40,
     0x80 + n / 0x40 % 0x40, 0x80 + n % 0x40]

def quoteByte (b : Nat) : List Char :=
  let c := Char.ofNat b
  if c.isAlpha ∨ c.isDigit ∨ c = '_' ∨ c = '.' ∨ c = '-' ∨ c = '~' then [c]
  else if b = 32 then ['+']
  else ['%', hexDigitUpper (b / 16), hexDigitUpper (b % 16)]

def quote_plus (s : String) : String :=
  ⟨(s.data.flatMap utf8Bytes).flatMap quoteByte⟩

/-! ### Data model: table rows, per-file caches, engine state -/

/-- A `trips` row (`route_id, service_id, trip_id, trip_headsign,
trip_short_name, direction_id`); `none` is sqlite NULL. -/
structure TripRow where
  route_id : String
  service_id : Option Nat
  trip_id : Nat
  trip_headsign : Option String
  trip_short_name : String
  direction_id : Nat
deriving DecidableEq, Repr

/-- A `stop_times` row. -/
structure StopTimeRow where
  trip_id : Nat
  arrival_time : String
  departure_time : String
  stop_id : String
  stop_sequence : Nat
  pickup_type : Nat
  drop_off_type : Nat
  timepoint : Nat
deriving DecidableEq, Repr

/-- A `calendar` row; `days` is the 7-element Monday..Sunday list. -/
structure CalendarRow where
  service_id : Nat
  days : List Nat
  start_date : String
  end_date : String
deriving DecidableEq, Repr

/-- A `calendar_dates` row. -/
structure CalDateRow where
  service_id : Nat
  date : String
  exception_type : Nat
deriving DecidableEq, Repr

/-- An `agency` row. -/
structure AgencyRow where
  agency_id : String
  agency_name : String
  agency_url : String
  agency_timezone : String
  agency_phone : Option String
deriving DecidableEq, Repr

/-- A `routes` row. -/
structure RouteRow where
  route_id : String
  agency_id : String
  route_short_name : String
  route_long_name : Option String
  route_type : Nat
deriving DecidableEq, Repr

/-- A `stops` row; coordinates are modelled as rationals (the pluggable
pyproj transform is a collaborator outside the core, see `Env.tf`). -/
structure StopRow where
  stop_id : String
  stop_name : String
  stop_lat : ℚ
  stop_lon : ℚ
deriving DecidableEq, Repr

/-- The value of `self.service[trip_id]["calendar"]` (7 weekday ints plus
the two date strings). -/
structure CalRow where
  days : List Nat
  start_date : String
  end_date : String
deriving DecidableEq, Repr

/-- One `self.service[trip_id]` dict; a missing key is `none`. -/
structure ServiceEntry where
  calendar : Option CalRow := none
  calendar_dates : Option (List (String × Nat)) := none
deriving DecidableEq, Repr

/-- One `self.agency_cache[agency_id]` dict. -/
structure AgencyCacheE where
  name : Option String := none
  phone : Option String := none
deriving DecidableEq, Repr

/-- One `self.route_cache[route_id]` dict (`agency`/`num` are always set
immediately after the dict is created). -/
structure RouteCacheE where
  agency : String := ""
  num : String := ""
  inbound : Option String := none
  outbound : Option String := none
deriving DecidableEq, Repr

/-- One `self.stop_cache[stop_id]` dict. -/
structure StopCacheE where
  name : Option String := none
  easting : Option String := none
  northing : Option String := none
deriving DecidableEq, Repr

/-- Process-wide configuration: the argument-settable values plus the two
collaborator interfaces (`today`'s date and the pyproj transform). -/
structure Env where
  today : String := "20251012"
  final_date : String := "20261012"
  bank_holidays : Option (List Nat) := none
  school_term : Option (List Nat) := none
  directional_routes : Bool := false
  unique_ids : Bool := false
  epsg : Option Nat := none
  mode : Nat := 3
  timezone : String := "Europe/London"
  tf : ℚ → ℚ → ℚ × ℚ := fun _ _ => (0, 0)

/-- The mutable state of one `atcocif` instance. `service` maps trip ids to
indices into `heap`: Python binds dict *references*, so
`self.service[new] = self.service[prev]` (in `repetition`) aliases, and this
ref/heap split keeps that observable. -/
structure St where
  file_num : Nat := 0
  line_num : Nat := 0
  trip_id : Nat := 0
  in_trip : Bool := false
  pre_times : Bool := false
  sequence : Nat := 0
  day_offset : Nat := 0
  last_hour : Int := 0
  grid_figures : Option Nat := none
  agency_cache : List (String × AgencyCacheE) := []
  agency_used : List String := []
  route_cache : List (String × RouteCacheE) := []
  route_used : List String := []
  route_duplicate : List String := []
  stop_cache : List (String × StopCacheE) := []
  stop_used : List String := []
  serviceMap : List (Nat × Nat) := []
  heap : List ServiceEntry := []
  trips : List TripRow := []
  stop_times : List StopTimeRow := []
  calendar : List CalendarRow := []
  calendar_dates : List CalDateRow := []
  agency : List AgencyRow := []
  routes : List RouteRow := []
  stops : List StopRow := []
  unsupported : List (String × Nat) := []
deriving DecidableEq, Repr

/-- Read of `self.service[trip_id]` through the ref/heap indirection. -/
def queuedEntry (st : St) (t : Nat) : Option ServiceEntry :=
  (lookupA t st.serviceMap).bind fun r => st.heap.get? r

/-! ### Helpers from the source (`-{ Helpers }-` section) -/

/-- Model of `atcocif.direction_to_gtfs`. -/
def direction_to_gtfs (id : String) : Nat :=
  if id = "I" then 1 else 0

/-- Model of `atcocif.sanitize_date`. The source's bare `raise` for a length other
than 8 raises `RuntimeError`, which its `except ValueError` does not catch,
so that case escapes the function (`Except.error`); nothing in the `try`
body can raise `ValueError`, so the handler is dead and every 8-character
string other than all-blank / all-nines is returned unchanged. -/
def sanitize_date (env : Env) (date_str : String) (is_commence : Bool) :
    Except Unit String :=
  if pyLen date_str ≠ 8 then .error ()
  else if date_str = "        " ∨ date_str = "99999999" then
    .ok (if is_commence then env.today else env.final_date)
  else .ok date_str

/-- Python `float(s)` restricted to the decimal forms grid references take
(optional sign, digits with at most one dot). -/
def pyFloat? (s : String) : Option ℚ :=
  let t := (pyStrip s).data
  let sign : ℚ := match t with
    | '-' :: _ => -1
    | _ => 1
  let t := match t with
    | '-' :: r => r
    | '+' :: r => r
    | r => r
  match t.splitOn '.' with
  | [i] => if i ≠ [] ∧ i.all Char.isDigit
      then some (sign * (digitsToNat i 0 : ℚ)) else none
  | [i, f] =>
      if (i ≠ [] ∨ f ≠ []) ∧ i.all Char.isDigit ∧ f.all Char.isDigit then
        some (sign * ((digitsToNat i 0 : ℚ)
          + (digitsToNat f 0 : ℚ) / (10 : ℚ) ^ f.length))
      else none
  | _ => none

/-- Model of `atcocif.sanitize_grid_ref` (with `grid_figures` passed explicitly). -/
def sanitize_grid_ref (grid_figures : Nat) (ref : String) : ℚ :=
  match pyFloat? (pyStrip ref ++ ⟨List.replicate (8 - grid_figures) '0'⟩) with
  | some q => q / 100
  | none => 0

/-- Model of `atcocif.sanitize_id` (file/line counters passed explicitly). -/
def sanitize_id (env : Env) (file_num line_num : Nat) (id : String)
    (allow_line_num : Bool) (direction : Nat) : String :=
  let id := pyStrip id
  let id := if pyLen id = 0 then
      (if allow_line_num then
        "unknown_" ++ toString file_num ++ "_" ++ toString line_num
      else "unknown_" ++ toString file_num)
    else id
  let id := if env.directional_routes ∧ direction = 1 then id ++ "_inbd" else id
  if env.unique_ids then id ++ "_" ++ pad4 file_num else id

/-- Model of `atcocif.time_str_to_time_tuple`. The source's local names `hour` and
`minute` are swapped; it returns `(min(HH + 24*day_offset, 99), MM)`, i.e.
(offset-adjusted hour, minute). Any failed `int()` yields `(0, 0)`. -/
def time_str_to_time_tuple (day_offset : Nat) (time_str : String)
    (is_gtfs : Bool) : Int × Int :=
  let hour? := if is_gtfs then pyInt? (pySlice time_str 3 5)
    else pyInt? (pySlice time_str 2 4)
  match hour?, pyInt? (pySlice time_str 0 2) with
  | some hour, some h0 =>
      let minute := pyMin (h0 + 24 * (day_offset : Int)) 99
      (minute, hour)
  | _, _ => (0, 0)

/-- Model of `atcocif._time_str_to_minutes`. -/
def time_str_to_minutes (day_offset : Nat) (time_str : String)
    (is_gtfs : Bool) : Int :=
  let t := time_str_to_time_tuple day_offset time_str is_gtfs
  t.1 * 60 + t.2

/-- Model of `atcocif.time_tuple_to_gtfs_str` (`"HH:MM:00"`). -/
def time_tuple_to_gtfs_str (t : Int × Int) : String :=
  fmt02 t.1 ++ ":" ++ fmt02 t.2 ++ ":" ++ "00"

/-- Python `divmod(m, 60)` (floor division; divisor is positive). -/
def divmod60 (m : Int) : Int × Int := (Int.ediv m 60, Int.emod m 60)

/-- Model of `atcocif.calendar_list`. A non-digit among the 7 weekday flags raises
`ValueError`, giving the all-zero blank-date fallback; a string shorter than
7 would raise `IndexError` instead (uncaught), modelled as `Except.error` —
the only caller slices 7 characters, so that case is unreachable there. -/
def calendar_list (start_date end_date weekday_str : String) :
    Except Unit CalRow :=
  if pyLen weekday_str < 7 then .error ()
  else
    let cs := weekday_str.data.take 7
    if cs.all Char.isDigit then
      .ok ⟨cs.map digitVal, start_date, end_date⟩
    else
      .ok ⟨List.replicate 7 0, "        ", "        "⟩

/-- Model of `atcocif.calendar_exception_list`. `exception_dates` is `none` when the
bank-holiday/school-term data is missing (source substitutes `[]`);
`calendar` is the weekday list of a `calendar_list` row, or `[]` for "any
day". Unparseable bounds give `[]` (the `ValueError` branch). -/
def calendar_exception_list (exception_dates : Option (List Nat))
    (calendar : List Nat) (start_date end_date : String)
    (action : Nat) (invert : Bool) : List (String × Nat) :=
  let exc := exception_dates.getD []
  match parseDate8 start_date, parseDate8 end_date with
  | some s, some e =>
      (List.range' s (e + 1 - s)).filterMap fun dn =>
        if ((¬invert ∧ dn ∈ exc) ∨ (invert ∧ dn ∉ exc))
            ∧ (calendar = [] ∨ calendar.getD (weekday dn) 0 = 1) then
          some (fmtDate dn, action)
        else none
  | _, _ => []

/-! ### Record handlers (`-{ Record ID Processing }-` section)

Each handler takes and returns the whole engine state; `Except.error st`
models a Python exception escaping the handler with the mutations performed
so far still in place. -/

/-- Model of `atcocif.header`: 0 if the line is a supported ATCO-CIF v05 header. -/
def header (line : String) : Nat :=
  if pyLen line < 10 then 1
  else if ¬ pyStarts line "ATCO-CIF" then 1
  else if pySlice line 8 10 ≠ "05" then 1
  else 0

/-- Model of `atcocif.journey` (QS). -/
def journey (env : Env) (st : St) (line : String) : Except St St :=
  if 3 ≤ pyLen line ∧ pyAt line 2 = "D" then
    .ok { st with in_trip := false }
  else if 65 ≤ pyLen line then
    let agency_id := sanitize_id env st.file_num st.line_num
      (pySlice line 3 7) false 0
    let route_num := pyStrip (pySlice line 38 42)
    let direction_id := direction_to_gtfs (pyAt line 64)
    let route_id := sanitize_id env st.file_num st.line_num
      (agency_id ++ "_" ++ route_num) true direction_id
    let trip_short_name := pyStrip (pySlice line 42 48)
    match sanitize_date env (pySlice line 13 21) true with
    | .error _ => .error st
    | .ok start_date =>
    match sanitize_date env (pySlice line 21 29) false with
    | .error _ => .error st
    | .ok end_date =>
    match calendar_list start_date end_date (pySlice line 29 36) with
    | .error _ => .error st
    | .ok calendar0 =>
    -- school flag at column 36
    if pyAt line 36 = "H" ∧ env.school_term = none then
      .ok { st with in_trip := false }
    else
      let cd0 : List (String × Nat) :=
        if pyAt line 36 = "S" then
          match env.school_term with
          | some stt => calendar_exception_list (some stt) calendar0.days
              start_date end_date 2 true
          | none => []
        else if pyAt line 36 = "H" then
          match env.school_term with
          | some stt => calendar_exception_list (some stt) calendar0.days
              start_date end_date 2 false
          | none => []  -- unreachable: handled by the early return above
        else []
      -- bank-holiday flag at column 37
      if pyAt line 37 = "B" ∧ env.bank_holidays = none then
        .ok { st with in_trip := false }
      else
        let (cd, cal) : List (String × Nat) × CalRow :=
          if pyAt line 37 = "A" then
            (cd0 ++ calendar_exception_list env.bank_holidays []
              start_date end_date 1 false, calendar0)
          else if pyAt line 37 = "B" then
            (cd0 ++ calendar_exception_list env.bank_holidays []
              start_date end_date 1 false,
             ⟨List.replicate 7 0, start_date, end_date⟩)
             -- calendar_list(start, end, "0000000") always succeeds
          else if pyAt line 37 = "X" then
            (cd0 ++ calendar_exception_list env.bank_holidays calendar0.days
              start_date end_date 2 false, calendar0)
          else (cd0, calendar0)
        -- from here onward, the trip is confirmed to be included
        let rcJ := setA route_id ({} : RouteCacheE)
          (fun rc => { rc with agency := agency_id, num := route_num })
          st.route_cache
        let trip_id' := st.trip_id + 1
        let entry : ServiceEntry :=
          { calendar := some cal,
            calendar_dates := if cd ≠ [] then some (unique_list cd) else none }
        .ok { st with
          trip_id := trip_id'
          in_trip := true
          pre_times := true
          serviceMap := st.serviceMap ++ [(trip_id', st.heap.length)]
          heap := st.heap ++ [entry]
          agency_used := if agency_id ∈ st.agency_used then st.agency_used
            else st.agency_used ++ [agency_id]
          route_used := if route_id ∈ st.route_used then st.route_used
            else st.route_used ++ [route_id]
          route_cache := rcJ
          trips := st.trips ++
            [{ route_id := route_id, service_id := none, trip_id := trip_id',
               trip_headsign := none, trip_short_name := trip_short_name,
               direction_id := direction_id }] }
  else
    .ok { st with in_trip := false }  -- malformed header: skip trip

/-- Model of `atcocif.journey_note` (QN/ZN). A missing trips row for the current
trip id makes `fetched[0]` raise `TypeError` (uncaught). -/
def journey_note (st : St) (line : String) : Except St St :=
  if 8 ≤ pyLen line ∧ st.in_trip ∧ st.pre_times then
    let note := pyStrip (pySliceFrom line 7)
    if note ≠ "" then
      match st.trips.find? (fun r => r.trip_id = st.trip_id) with
      | none => .error st
      | some row =>
        let note := match row.trip_headsign with
          | some h => h ++ " | " ++ note
          | none => note
        .ok { st with trips := st.trips.map fun r =>
          if r.trip_id = st.trip_id then { r with trip_headsign := some note }
          else r }
    else .ok st
  else .ok st

/-- Model of `atcocif.location` (QL name / QB grid). -/
def location (env : Env) (st : St) (line : String) : Except St St :=
  if 16 ≤ pyLen line ∧ pyAt line 2 ≠ "D" then
    let stop_id := sanitize_id env st.file_num st.line_num
      (pySlice line 3 15) false 0
    let st := { st with stop_cache := setA stop_id ({} : StopCacheE) id st.stop_cache }
    if pyStarts line "QL" then
      let stop_name := if 64 ≤ pyLen line then pyStrip (pySlice line 15 63)
        else pyStrip (pySliceFrom line 15)
      if stop_name ≠ "" then
        let sc := setA stop_id ({} : StopCacheE)
          (fun c => { c with name := some stop_name }) st.stop_cache
        .ok { st with stop_cache := sc }
      else .ok st
    else if pyStarts line "QB" ∧ 24 ≤ pyLen line ∧ env.epsg ≠ none then
      let easting := pyStrip (pySlice line 15 23)
      let northing := if 32 ≤ pyLen line then pyStrip (pySlice line 23 31)
        else pyStrip (pySliceFrom line 23)
      if easting ≠ "" ∧ northing ≠ "" then
        let sc := setA stop_id ({} : StopCacheE)
          (fun c => { c with easting := some easting,
                             northing := some northing }) st.stop_cache
        .ok { st with stop_cache := sc }
      else .ok st
    else .ok st
  else .ok st

/-- Model of `atcocif.operator` (QP). -/
def operator (env : Env) (st : St) (line : String) : Except St St :=
  if 32 ≤ pyLen line ∧ pyAt line 2 ≠ "D" then
    let agency_id := sanitize_id env st.file_num st.line_num
      (pySlice line 3 7) false 0
    let st := { st with agency_cache := setA agency_id ({} : AgencyCacheE) id st.agency_cache }
    let agency_name := pyStrip (pySlice line 7 31)
    let st := if agency_name ≠ "" then
        let ac := setA agency_id ({} : AgencyCacheE)
          (fun c => { c with name := some agency_name }) st.agency_cache
        { st with agency_cache := ac }
      else st
    if 92 ≤ pyLen line then
      let agency_phone := pyStrip (pySliceFrom line 91)
      if agency_phone ≠ "" then
        let ac := setA agency_id ({} : AgencyCacheE)
          (fun c => { c with phone := some agency_phone }) st.agency_cache
        .ok { st with agency_cache := ac }
      else .ok st
    else .ok st
  else .ok st

/-- Model of `atcocif.route_description` (QD). -/
def route_description (env : Env) (st : St) (line : String) : Except St St :=
  if 13 ≤ pyLen line ∧ pyAt line 2 ≠ "D" then
    let agency_id := sanitize_id env st.file_num st.line_num
      (pySlice line 3 7) false 0
    let st := { st with agency_used :=
      if agency_id ∈ st.agency_used then st.agency_used
      else st.agency_used ++ [agency_id] }
    let route_num := pyStrip (pySlice line 7 11)
    let direction_id := direction_to_gtfs (pyAt line 11)
    let route_id := sanitize_id env st.file_num st.line_num
      (agency_id ++ "_" ++ route_num) true direction_id
    let route_name := pyStrip (pySliceFrom line 12)
    let rc0 := setA route_id ({} : RouteCacheE)
      (fun rc => { rc with agency := agency_id, num := route_num })
      st.route_cache
    let st := { st with route_cache := rc0 }
    if route_name ≠ "" then
      if direction_id = 1 then
        let rc1 := setA route_id ({} : RouteCacheE)
          (fun rc => { rc with inbound := some route_name }) st.route_cache
        .ok { st with route_cache := rc1 }
      else
        let rc1 := setA route_id ({} : RouteCacheE)
          (fun rc => { rc with outbound := some route_name }) st.route_cache
        .ok { st with route_cache := rc1 }
    else .ok st
  else .ok st

/-- Model of `atcocif.stop_times` (QO origin / QI intermediate / QT destination).
Mirrors the source exactly: the arrival tuple is computed *before* the QO
branch resets `day_offset`, `last_hour` is only moved by a QO or by a
departure-triggered rollover, and the acceptance guard tests the running
`sequence` counter (never reset between trips) rather than a per-trip
state. -/
def stop_times (env : Env) (st : St) (line : String) : Except St St :=
  if ((23 ≤ pyLen line ∧ ¬ pyStarts line "QI")
        ∨ (28 ≤ pyLen line ∧ pyStarts line "QI"))
      ∧ st.in_trip ∧ (pyStarts line "QO" ∨ 0 < st.sequence) then
    let stop_id := sanitize_id env st.file_num st.line_num
      (pySlice line 2 14) false 0
    let st := { st with stop_used :=
      if stop_id ∈ st.stop_used then st.stop_used
      else st.stop_used ++ [stop_id] }
    let arrival := time_str_to_time_tuple st.day_offset
      (pySlice line 14 18) false
    let (st, arrival) :=
      if pyStarts line "QO" then
        ({ st with pre_times := false, sequence := 1,
                   last_hour := arrival.1, day_offset := 0 }, arrival)
      else
        let st := { st with sequence := st.sequence + 1 }
        if arrival.1 < st.last_hour then
          let st := { st with day_offset := st.day_offset + 1 }
          (st, time_str_to_time_tuple st.day_offset (pySlice line 14 18) false)
        else (st, arrival)
    let (st, departure, pickup, drop_off, timepoint) :=
      if pyStarts line "QI" then
        let departure := time_str_to_time_tuple st.day_offset
          (pySlice line 18 22) false
        let (st, departure) :=
          if departure.1 < st.last_hour then
            let st := { st with day_offset := st.day_offset + 1 }
            let departure := time_str_to_time_tuple st.day_offset
              (pySlice line 18 22) false
            ({ st with last_hour := departure.1 }, departure)
          else (st, departure)
        let timepoint := if pySlice line 26 28 = "T1" then 1 else 0
        let (pickup, drop_off) :=
          if pyAt line 22 = "P" then (0, 1)
          else if pyAt line 22 = "S" then (1, 0)
          else if pyAt line 22 = "N" then (1, 1)
          else (0, 0)
        (st, departure, pickup, drop_off, timepoint)
      else
        let timepoint := if pySlice line 21 23 = "T1" then 1 else 0
        let (pickup, drop_off) :=
          if pyStarts line "QO" then (0, 1)
          else if pyStarts line "QT" then (1, 0)
          else (0, 0)
        (st, arrival, pickup, drop_off, timepoint)
    .ok { st with stop_times := st.stop_times ++
      [{ trip_id := st.trip_id,
         arrival_time := time_tuple_to_gtfs_str arrival,
         departure_time := time_tuple_to_gtfs_str departure,
         stop_id := stop_id, stop_sequence := st.sequence,
         pickup_type := pickup, drop_off_type := drop_off,
         timepoint := timepoint }] }
  else .ok st

/-- Model of `atcocif.date_exceptions` (QE). The `self.service` entry for the
current trip is created if missing *before* the exception list is computed;
the list is attached only when non-empty. The write goes through the heap
reference, so an entry shared with another trip (after a QR repetition)
changes for both. -/
def date_exceptions (env : Env) (st : St) (line : String) : Except St St :=
  if 19 ≤ pyLen line ∧ st.in_trip then
    match sanitize_date env (pySlice line 2 10) true with
    | .error _ => .error st
    | .ok start_date =>
    match sanitize_date env (pySlice line 10 18) false with
    | .error _ => .error st
    | .ok end_date =>
    let action := if pyAt line 18 = "0" then 2 else 1
    let (st, ref) :=
      match lookupA st.trip_id st.serviceMap with
      | some r => (st, r)
      | none =>
          ({ st with serviceMap := st.serviceMap ++ [(st.trip_id, st.heap.length)],
                     heap := st.heap ++ [({} : ServiceEntry)] }, st.heap.length)
    let entry := (st.heap.get? ref).getD {}
    let dates := entry.calendar_dates.getD []
    let calendar := (entry.calendar.map (·.days)).getD []
    let dates := dates ++ calendar_exception_list (some []) calendar
      start_date end_date action true
    if 0 < dates.length then
      let heap' := st.heap.set ref
        { entry with calendar_dates := some (unique_list dates) }
      .ok { st with heap := heap' }
    else .ok st
  else .ok st

/-- Stable ascending sort of stop-time rows by `stop_sequence`
(sqlite `ORDER BY stop_sequence ASC` in rowid order on ties). -/
def insertBySeq (x : StopTimeRow) : List StopTimeRow → List StopTimeRow
  | [] => [x]
  | y :: ys => if x.stop_sequence < y.stop_sequence then x :: y :: ys
      else y :: insertBySeq x ys
def sortBySeq : List StopTimeRow → List StopTimeRow
  | [] => []
  | x :: xs => insertBySeq x (sortBySeq xs)

/-- Model of `atcocif.repetition` (QR). `cursor.fetchall()` never returns `None`,
so the source's `prev_times is not None` guard is always satisfied: with a
prior trips row but no stop-time rows the handler inserts the cloned trips
row and then raises `IndexError` at `prev_times[0]` (modelled as
`Except.error` with that row already inserted). The new trip's service
entry *aliases* the previous trip's (same heap reference). -/
def repetition (_env : Env) (st : St) (line : String) : Except St St :=
  if 31 ≤ pyLen line ∧ st.in_trip then
    let prev_id := st.trip_id
    let prev_trip? := st.trips.find? (fun r => r.trip_id = prev_id)
    let prev_times := sortBySeq
      (st.stop_times.filter (fun r => r.trip_id = prev_id))
    match prev_trip? with
    | none => .ok st
    | some prev_trip =>
      let trip_id' := prev_id + 1
      let trip_short_name := pyStrip (pySlice line 24 30)
      match lookupA prev_id st.serviceMap with
      | none => .error { st with trip_id := trip_id' }
        -- KeyError at `self.service[prev_id]`, after the counter bump
      | some ref =>
        let st := { st with
          trip_id := trip_id'
          serviceMap := st.serviceMap ++ [(trip_id', ref)]
          trips := st.trips ++
            [{ route_id := prev_trip.route_id, service_id := none,
               trip_id := trip_id', trip_headsign := prev_trip.trip_headsign,
               trip_short_name := trip_short_name,
               direction_id := prev_trip.direction_id }] }
        let departure_minutes := time_str_to_minutes st.day_offset
          (pySlice line 14 18) false
        match prev_times with
        | [] => .error st  -- IndexError at `prev_times[0]`
        | t0 :: _ =>
          let prev_time_minutes := time_str_to_minutes st.day_offset
            t0.departure_time true
          let offset := departure_minutes - prev_time_minutes
          let newRows := prev_times.map fun s =>
            { trip_id := trip_id'
              arrival_time := time_tuple_to_gtfs_str (divmod60
                (time_str_to_minutes st.day_offset s.arrival_time true + offset))
              departure_time := time_tuple_to_gtfs_str (divmod60
                (time_str_to_minutes st.day_offset s.departure_time true + offset))
              stop_id := s.stop_id, stop_sequence := s.stop_sequence,
              pickup_type := s.pickup_type, drop_off_type := s.drop_off_type,
              timepoint := s.timepoint : StopTimeRow }
          .ok { st with stop_times := st.stop_times ++ newRows }
  else .ok st

/-! ### End-of-file processing (`-{ End of File Processing }-` section)

The insert/update "plans" mirror the `insert`/`update` lists the source
accumulates before its `executemany` calls; each is a per-id `filterMap`
over the file's used-id list (no cross-iteration state except the
`grid_figures` threading in `stops`). -/

/-- ids of `agency` rows whose name is the placeholder "Unknown Operator"
(`known_empty_agency_id`). -/
def agencyEmptyIds (st : St) : List String :=
  (st.agency.filter (fun r => r.agency_name = "Unknown Operator")).map
    (·.agency_id)

/-- The `(agency_id, agency_name, agency_url, agency_timezone, agency_phone)`
insert list of `atcocif.agency`. -/
def agencyInserts (env : Env) (st : St) : List AgencyRow :=
  let known := st.agency.map (·.agency_id)
  let knownEmpty := agencyEmptyIds st
  st.agency_used.filterMap fun agency_id =>
    if agency_id ∉ known ∨ agency_id ∈ knownEmpty then
      let cache := lookupA agency_id st.agency_cache
      let agency_name := ((cache.map (·.name)).join).getD "Unknown Operator"
      let agency_phone := (cache.map (·.phone)).join
      let agency_url := "https://www.google.com/search?q=" ++
        quote_plus agency_name
      if agency_id ∉ known then
        some ⟨agency_id, agency_name, agency_url, env.timezone, agency_phone⟩
      else none
    else none

/-- The `(agency_name, agency_url, agency_phone, agency_id)` update list of
`atcocif.agency`. -/
def agencyUpdates (_env : Env) (st : St) :
    List (String × String × Option String × String) :=
  let known := st.agency.map (·.agency_id)
  let knownEmpty := agencyEmptyIds st
  st.agency_used.filterMap fun agency_id =>
    if agency_id ∉ known ∨ agency_id ∈ knownEmpty then
      let cache := lookupA agency_id st.agency_cache
      let agency_name := ((cache.map (·.name)).join).getD "Unknown Operator"
      let agency_phone := (cache.map (·.phone)).join
      let agency_url := "https://www.google.com/search?q=" ++
        quote_plus agency_name
      if agency_id ∉ known then none
      else if agency_name ≠ "Unknown Operator" ∧ agency_id ∈ knownEmpty then
        some (agency_name, agency_url, agency_phone, agency_id)
      else none
    else none

/-- Model of `atcocif.agency`: inserts then updates. -/
def agency_eof (env : Env) (st : St) : St :=
  let ins := agencyInserts env st
  let upd := agencyUpdates env st
  let rows := st.agency ++ ins
  let rows := upd.foldl (fun rs u => rs.map fun r =>
    if r.agency_id = u.2.2.2 then
      { r with agency_name := u.1, agency_url := u.2.1,
               agency_phone := u.2.2.1 }
    else r) rows
  { st with agency := rows }

/-- Python `==` between `unique[i]["calendar_dates"]` (a list of 2-element
*lists*) and the fetched rows (a list of 2-element *tuples*): a list never
equals a tuple, so the elementwise comparison can only succeed when both
sides are empty. -/
def pyListTupleRowsEq (l db : List (String × Nat)) : Bool :=
  l.isEmpty && db.isEmpty

/-- The stored `calendar_dates` pairs of a service id, in the source's
`ORDER BY date DESC, exception_type DESC`. -/
def storedDates (st : St) (sid : Nat) : List (String × Nat) :=
  sortPairsDesc ((st.calendar_dates.filter
    (fun r => r.service_id = sid)).map fun r => (r.date, r.exception_type))

/-- The match test of `atcocif.calendar` for one candidate service id. -/
def calendarMatches (st : St) (e : ServiceEntry) (sid : Nat) : Bool :=
  let dates := storedDates st sid
  match e.calendar_dates with
  | some l => pyListTupleRowsEq l dates
  | none => dates.isEmpty

/-- One group of `atcocif.calendar`: find or create the calendar row for
service entry `e`, then point all of `tids`' trips rows at it. -/
def calendarGroup (st : St) (e : ServiceEntry) (tids : List Nat) :
    Except St St :=
  match e.calendar with
  | none => .error st  -- KeyError at `unique[i]["calendar"]`
  | some cal =>
    let candidates : List Nat := (st.calendar.filter fun r =>
      r.days = cal.days ∧ r.start_date = cal.start_date
        ∧ r.end_date = cal.end_date).map (·.service_id)
    let (st, match_id) : St × Nat :=
      match candidates.find? (fun sid => calendarMatches st e sid) with
      | some sid => (st, sid)
      | none =>
          -- no match: allocate `1 + COUNT(*)` and insert the row and dates
          let sid := 1 + st.calendar.length
          ({ st with
            calendar := st.calendar ++
              [{ service_id := sid, days := cal.days,
                 start_date := cal.start_date, end_date := cal.end_date }]
            calendar_dates := st.calendar_dates ++
              ((e.calendar_dates.getD []).map fun d =>
                { service_id := sid, date := d.1, exception_type := d.2 }) },
           sid)
    .ok { st with trips := st.trips.map fun r =>
      if r.trip_id ∈ tids then { r with service_id := some match_id } else r }

/-- Grouping pass of `atcocif.calendar`: walk `self.service` in insertion
order, collecting distinct entry values and, per value, the trip ids
mapped to it. -/
def groupServices : List (Nat × ServiceEntry) →
    List (ServiceEntry × List Nat) → List (ServiceEntry × List Nat)
  | [], acc => acc
  | (tid, e) :: rest, acc =>
      if (acc.find? (fun g => g.1 = e)).isSome then
        groupServices rest (acc.map fun g =>
          if g.1 = e then (g.1, g.2 ++ [tid]) else g)
      else groupServices rest (acc ++ [(e, [tid])])

def foldGroups : St → List (ServiceEntry × List Nat) → Except St St
  | st, [] => .ok st
  | st, (e, tids) :: rest =>
      match calendarGroup st e tids with
      | .error s => .error s
      | .ok s => foldGroups s rest

/-- Model of `atcocif.calendar`: merge identical service entries, reuse or create
`calendar` rows, and fill in the trips' `service_id` references. -/
def calendar_eof (st : St) : Except St St :=
  let entries := st.serviceMap.map fun p =>
    (p.1, (st.heap.get? p.2).getD {})
  foldGroups st (groupServices entries [])

/-- Model of `known_empty_route_id` in `atcocif.route`: the source runs
`SELECT route_id FROM routes WHERE route_long_name=?` with parameter
`None`; in SQL `route_long_name = NULL` is never true, so the result set
is always empty. -/
def routeEmptyIds (_st : St) : List String := []

/-- The long-name composition of `atcocif.route` for a cached route. -/
def routeLongName (rc : RouteCacheE) : Option String :=
  match rc.inbound, rc.outbound with
  | some i, some o => some (o ++ " | " ++ i)
  | some i, none => some i
  | none, some o => some o
  | none, none => none

/-- The insert list of `atcocif.route`. -/
def routeInserts (env : Env) (st : St) : List RouteRow :=
  let known := st.routes.map (·.route_id)
  let knownEmpty := routeEmptyIds st
  st.route_used.filterMap fun route_id =>
    if route_id ∉ known ∨ route_id ∈ knownEmpty then
      match lookupA route_id st.route_cache with
      | some rc =>
          if route_id ∉ known then
            some ⟨route_id, rc.agency, rc.num, routeLongName rc, env.mode⟩
          else none
      | none => none
    else none

/-- The `(route_long_name, route_id)` update list of `atcocif.route`. -/
def routeUpdates (st : St) : List (String × String) :=
  let known := st.routes.map (·.route_id)
  let knownEmpty := routeEmptyIds st
  st.route_used.filterMap fun route_id =>
    if route_id ∉ known ∨ route_id ∈ knownEmpty then
      match lookupA route_id st.route_cache with
      | some rc =>
          if route_id ∉ known then none
          else match routeLongName rc with
            | some nm => if route_id ∈ knownEmpty then some (nm, route_id)
                else none
            | none => none
      | none => none
    else none

/-- Model of `atcocif.route`: inserts, updates, and the cross-file duplicate list. -/
def route_eof (env : Env) (st : St) : St :=
  let known := st.routes.map (·.route_id)
  let knownEmpty := routeEmptyIds st
  let dup := st.route_used.foldl (fun d route_id =>
    if route_id ∉ known ∨ route_id ∈ knownEmpty then d
    else if route_id ∈ d then d else d ++ [route_id]) st.route_duplicate
  let rows := st.routes ++ routeInserts env st
  let rows := (routeUpdates st).foldl (fun rs u => rs.map fun r =>
    if r.route_id = u.2 then { r with route_long_name := some u.1 } else r)
    rows
  { st with routes := rows, route_duplicate := dup }

/-- ids of `stops` rows the source treats as re-writable
(`known_empty_stop_id`): placeholder name *or* (0,0) coordinates. -/
def stopEmptyIds (st : St) : List String :=
  (st.stops.filter fun r =>
    r.stop_name = "Unknown" ∨ (r.stop_lat = 0 ∧ r.stop_lon = 0)).map
    (·.stop_id)

/-- Name/coordinate resolution for one used stop id in `atcocif.stops`,
threading `grid_figures`. The pyproj transform (out-of-scope collaborator)
is `env.tf`, applied to the sanitized grid references; its 8-decimal
rounding is omitted (coordinates are exact rationals here). -/
def stopResolve (env : Env) (gf : Option Nat) (st : St) (stop_id : String) :
    Option Nat × String × ℚ × ℚ :=
  match lookupA stop_id st.stop_cache with
  | none => (gf, "Unknown", 0, 0)
  | some c =>
    let stop_name := c.name.getD "Unknown"
    match env.epsg, c.easting, c.northing with
    | some _, some e, some n =>
        let gf' := match gf with
          | some g => g
          | none => pyLen (pyStrip e)
        let latlog := env.tf (sanitize_grid_ref gf' e) (sanitize_grid_ref gf' n)
        if latlog.1 ≤ 90 ∧ -90 ≤ latlog.1
            ∧ latlog.2 ≤ 180 ∧ -180 ≤ latlog.2 then
          (some gf', stop_name, latlog.1, latlog.2)
        else (some gf', stop_name, 0, 0)  -- out of bounds: counted, dropped
    | _, _, _ => (gf, stop_name, 0, 0)

/-- One iteration of the `atcocif.stops` loop (the `known`/`known_empty`
snapshots are taken from `st`, which the loop does not modify). -/
def stopsStep (env : Env) (st : St)
    (acc : Option Nat × List StopRow × List (String × ℚ × ℚ × String))
    (stop_id : String) :
    Option Nat × List StopRow × List (String × ℚ × ℚ × String) :=
  let known := st.stops.map (·.stop_id)
  let knownEmpty := stopEmptyIds st
  let (gf, ins, upd) := acc
  if stop_id ∉ known ∨ stop_id ∈ knownEmpty then
    let (gf', stop_name, lat, lon) := stopResolve env gf st stop_id
    if stop_id ∉ known then
      (gf', ins ++ [⟨stop_id, stop_name, lat, lon⟩], upd)
    else if stop_id ∈ knownEmpty
        ∧ (stop_name ≠ "Unknown" ∨ lat ≠ 0 ∨ lon ≠ 0) then
      (gf', ins, upd ++ [(stop_name, lat, lon, stop_id)])
    else (gf', ins, upd)
  else acc

/-- The insert and update plans of `atcocif.stops` plus the final
`grid_figures`: a fold over `stop_used` mirroring the source's loop. -/
def stopsPlan (env : Env) (st : St) :
    Option Nat × List StopRow × List (String × ℚ × ℚ × String) :=
  st.stop_used.foldl (stopsStep env st) (st.grid_figures, [], [])

/-- Model of `atcocif.stops`: apply the plan. -/
def stops_eof (env : Env) (st : St) : St :=
  let (gf, ins, upd) := stopsPlan env st
  let rows := st.stops ++ ins
  let rows := upd.foldl (fun rs u => rs.map fun r =>
    if r.stop_id = u.2.2.2 then
      { r with stop_name := u.1, stop_lat := u.2.1, stop_lon := u.2.2.1 }
    else r) rows
  { st with stops := rows, grid_figures := gf }

/-! ### File driver (`atcocif.file`) -/

/-- Record dispatch for one body line (the `startswith` chain). -/
def dispatch (env : Env) (st : St) (line : String) : Except St St :=
  if pyStarts line "QB" ∨ pyStarts line "QL" then location env st line
  else if pyStarts line "QD" then route_description env st line
  else if pyStarts line "QE" then date_exceptions env st line
  else if pyStarts line "QI" ∨ pyStarts line "QO"
      ∨ pyStarts line "QT" then stop_times env st line
  else if pyStarts line "QN" ∨ pyStarts line "ZN" then
    journey_note st line
  else if pyStarts line "QP" then operator env st line
  else if pyStarts line "QR" then repetition env st line
  else if pyStarts line "QS" then journey env st line
  else if pyStarts line "QQ" ∨ pyStarts line "QV"
      ∨ pyStarts line "ZG" ∨ pyStarts line "ZJ" then .ok st
  else
    let rid := pyStrip (pySlice line 0 2)
    if 0 < pyLen rid then
      .ok { st with unsupported := setA rid 0 (· + 1) st.unsupported }
    else .ok st

def runBody (env : Env) : St → List String → Except St St
  | st, [] => .ok st
  | st, l :: ls =>
      let st := { st with line_num := st.line_num + 1 }
      if 3 ≤ pyLen l then
        match dispatch env st l with
        | .error s => .error s
        | .ok s => runBody env s ls
      else runBody env st ls

/-- End-of-file finalization: `agency(); calendar(); route(); stops()`,
with a `calendar` KeyError escaping as a per-file failure. -/
def finalize (env : Env) (st : St) : St × Nat :=
  let st := agency_eof env st
  match calendar_eof st with
  | .error s => (s, 1)
  | .ok s => (stops_eof env (route_eof env s), 0)

/-- Model of `atcocif.file`: reset the per-file caches, check the header line,
stream the remaining lines through the dispatcher, then finalize.
Returns the state and the source's 0/1 result (1 = per-file failure;
any escaped exception is caught by the `except` catch-all). -/
def file (env : Env) (st : St) (lines : List String) : St × Nat :=
  let st := { st with
    agency_cache := [], agency_used := [], file_num := st.file_num + 1,
    line_num := 0, route_used := [], route_cache := [],
    serviceMap := [], heap := [], stop_used := [], stop_cache := [] }
  match lines with
  | [] => finalize env st
  | hdr :: rest =>
      let st := { st with line_num := 1 }
      if header hdr = 1 then (st, 1)
      else match runBody env st rest with
        | .error s => (s, 1)
        | .ok s => finalize env s

/-- The state a handler leaves behind, whether it returned or raised. -/
def okOf : Except St St → St
  | .ok s => s
  | .error s => s

/-! ### Concrete inputs shared by the claims -/

/-- A default environment: no bank-holiday or school-term data loaded, no
projection configured. -/
def env0 : Env := {}

/-- A valid ATCO-CIF v05 header line. -/
def hdrLine : String := "ATCO-CIF0500Test                    20200101"

/-- The journey header used throughout the repository's own tests:
operator `OP`, dates 20200101..20200112, weekday bits `1010100`
(Mon/Wed/Fri), route `101`, direction inbound. -/
def qsLine : String :=
  "QSNOP  42    20200101202001121010100  101 101-42BIGBUS  TC=10142I"

/-- C1's end-to-end input: header, `qsLine`, and one QE record removing the
range 20200101..20200103. -/
def c1Lines : List String := [hdrLine, qsLine, "QE20200101202001030"]

/-- The batch state after processing `c1Lines` once. -/
def c2First : St := (file env0 {} c1Lines).1

/-- The batch state after processing the identical file a second time. -/
def c2Second : St := (file env0 c2First c1Lines).1

/-- C3's input: a journey header immediately followed by a repetition
record, so the open trip has a trips row but no stop-time rows yet. -/
def c3Lines : List String :=
  [hdrLine, qsLine, "QRSTOP-REF0008234543    101-43BIGBUS  "]

set_option maxRecDepth 16000

/-- Fold a list of stop-record lines through `stop_times`. -/
def stopsSeq (env : Env) : St → List String → St
  | st, [] => st
  | st, l :: ls => stopsSeq env (okOf (stop_times env st l)) ls

/-- C4's stop records: source-format hours 22, 23, 00, 01 in stop order. -/
def c4Lines : List String :=
  ["QOSTOPAAAA00012200A  T1F1",
   "QISTOPAAAA000223002300B   T0F0",
   "QISTOPAAAA000300000000B   T0F0",
   "QTSTOPAAAA00040100A  T1F0"]

/-- C5's end-to-end input: a complete first trip (stop sequences 1..3),
then a second journey header immediately followed by a QI record. -/
def c5Lines : List String :=
  [hdrLine, qsLine,
   "QOSTOPAAAA00012200A  T1F1",
   "QISTOPAAAA000223002300B   T0F0",
   "QTSTOPAAAA00040100A  T1F0",
   qsLine,
   "QISTOPAAAA000223202325B   T0F0"]

def c5qoLine : String := "QOBBSTOPBB00012200A  T1F1"
def c5qiLine : String := "QIBBSTOPBB000223002300B   T0F0"
def c5qtLine : String := "QTBBSTOPBB00030100A  T1F0"

/-- Line `qsLine` with the school flag `H` (school-holiday-only) at column 36. -/
def c7hLine : String :=
  "QSNOP  42    20200101202001121010100H 101 101-42BIGBUS  TC=10142I"

/-- Line `qsLine` with the bank-holiday flag `B` (bank-holidays-only) at
column 37. -/
def c7bLine : String :=
  "QSNOP  42    20200101202001121010100 B101 101-42BIGBUS  TC=10142I"

/-- A concrete closed-trip state (with leftovers from a previous trip). -/
def c7StW : St := { trip_id := 7, sequence := 5 }

/-- C8's origin record: HH digits 22. -/
def c8qoLine : String := "QOCCSTOPCC00012200A  T1F1"

/-- The origin row C8's QO record stores when the inherited day offset is
`d`: hour `min(22 + 24*d, 99)`, drop-off-only, sequence 1. -/
def c8Row (d : Nat) : StopTimeRow where
  trip_id := 3
  arrival_time := time_tuple_to_gtfs_str (pyMin (22 + 24 * (d : Int)) 99, 0)
  departure_time := time_tuple_to_gtfs_str (pyMin (22 + 24 * (d : Int)) 99, 0)
  stop_id := "CCSTOPCC0001"
  stop_sequence := 1
  pickup_type := 0
  drop_off_type := 1
  timepoint := 1

/-- C10's setup: one full trip, then a QR repetition cloning it (the clone
*aliases* the original's `self.service` entry). -/
def c10Setup : List String :=
  [qsLine,
   "QOSTOPAAAA00012315A  T1F1",
   "QTSTOPAAAA00022355A  T1F0",
   "QRSTOPAAAA0001234543    101-43BIGBUS  "]

/-- State after `c10Setup` (trips 1 and 2 share one service entry). -/
def c10StA : St := okOf (runBody env0 { file_num := 1 } c10Setup)

/-- State after a further QE record removing 20200101, processed while
trip 2 is the current trip. -/
def c10StB : St :=
  okOf (date_exceptions env0 c10StA "QE20200101202001010")

/-- A two-trip state whose service entries are *not* aliased. -/
def c10StC : St := okOf (runBody env0 { file_num := 1 } [qsLine, qsLine])

/-- The C6 environment: a projection is configured, and the pluggable
coordinate transform (a collaborator, out of the core's scope) returns a
fixed in-bounds location. -/
def envC6 : Env := { epsg := some 29903, tf := fun _ _ => (54, -5) }

/-- C6, file 1: a stop name record ("Foo") and a trip using the stop — but
no grid record, so the stop is committed with real name and (0,0). -/
def c6File1 : List String :=
  [hdrLine, "QLNSTOPREF00001Foo", qsLine, "QOSTOPREF000012200A  T1F1"]

/-- C6, file 2: the same stop now with only a grid record (no name), the
same route used again, plus a route description for it. -/
def c6File2 : List String :=
  [hdrLine, "QBNSTOPREF00001333448  373764", qsLine,
   "QOSTOPREF000012200A  T1F1", "QDNOP  101 OCity - Town"]

def c6StA : St := (file envC6 {} c6File1).1

def c6StB : St := (file envC6 c6StA c6File2).1

/-- A small committed state used to witness `c6_amended`: one placeholder
agency row, one zero-coordinate stop row with a real name, and fresh cached
data for both. -/
def c6WSt : St :=
  { agency := [{ agency_id := "OP", agency_name := "Unknown Operator",
                 agency_url := "u", agency_timezone := "tz",
                 agency_phone := none }],
    agency_used := ["OP"],
    agency_cache := [("OP", { name := some "Real", phone := none })],
    stops := [{ stop_id := "S1", stop_name := "Foo",
                stop_lat := 0, stop_lon := 0 }],
    stop_used := ["S1"],
    stop_cache := [("S1", { name := some "Bar" })] }

/-! ### Claim theorems -/

/-- C1 (counterexample): processing the claimed scenario yields the claimed
calendar row `[1,0,1,0,1,0,0]` but a *non-empty* set of `calendar_dates`
rows, contradicting "zero calendar_dates rows": 20200101 is a Wednesday and
Wednesday is an active weekday of the pattern, so its removal does take
effect (and produces a row). -/
theorem c1_counterexample :
    (file env0 {} c1Lines).1.calendar.map (fun r => r.days)
        = [[1, 0, 1, 0, 1, 0, 0]]
      ∧ (file env0 {} c1Lines).1.calendar_dates ≠ [] := by
  decide

/-- C1 (amended): the scenario yields the calendar row `[1,0,1,0,1,0,0]`
and exactly two `calendar_dates` removal rows, for 20200101 (Wednesday) and
20200103 (Friday) — both active weekdays — while 20200102 (Thursday,
inactive) produces none: a removal date yields a row only if it falls on an
active weekday of the trip's weekly pattern. -/
theorem c1_amended :
    (file env0 {} c1Lines).1.calendar
        = [{ service_id := 1, days := [1, 0, 1, 0, 1, 0, 0],
             start_date := "20200101", end_date := "20200112" }]
      ∧ (file env0 {} c1Lines).1.calendar_dates
        = [{ service_id := 1, date := "20200101", exception_type := 2 },
           { service_id := 1, date := "20200103", exception_type := 2 }]
      ∧ (file env0 {} c1Lines).1.trips.map (fun r => (r.trip_id, r.service_id))
        = [(1, some 1)] := by
  decide

/-- C2: re-running the end-of-file calendar merge on an identical
trip-to-pattern mapping is *not* idempotent once the pattern carries
exception dates. The source fetches the stored dates as sqlite tuples in
descending order and compares them with `==` against the ascending list of
two-element lists held in `self.service`; the comparison never succeeds, so
the second run allocates a fresh calendar id (2, not the stored 1), inserts
a duplicate calendar row and re-inserts both calendar_dates rows. -/
theorem c2_rerun_not_idempotent :
    c2First.calendar.length = 1
      ∧ c2First.trips.map (fun r => (r.trip_id, r.service_id)) = [(1, some 1)]
      ∧ c2Second.calendar.length = 2
      ∧ c2Second.trips.map (fun r => (r.trip_id, r.service_id))
        = [(1, some 1), (2, some 2)]
      ∧ c2Second.calendar_dates.length = 4
      ∧ c2Second.calendar.map (fun r => r.days)
        = [[1, 0, 1, 0, 1, 0, 0], [1, 0, 1, 0, 1, 0, 0]] := by
  decide

/-- C3: a QR processed while the open trip has a trips row but no stop-time
rows is *not* a silent no-op. `fetchall()` never returns `None`, so the
source's `prev_times is not None` guard passes on the empty list: the
handler inserts a second (cloned) trips row, then `prev_times[0]` raises
`IndexError`, which the `file` catch-all converts into a per-file failure
(return 1) — end-of-file finalization never runs, so no trip gets a
`service_id`. -/
theorem c3_qr_empty_stop_times_crashes_file :
    (file env0 {} c3Lines).2 = 1
      ∧ (file env0 {} c3Lines).1.trips.map
          (fun r => (r.trip_id, r.trip_short_name, r.service_id))
        = [(1, "101-42", none), (2, "101-43", none)]
      ∧ (file env0 {} c3Lines).1.stop_times = [] := by
  decide

/-- C4: for a freshly opened trip (day offset 0; the leftover `sequence`
and `last_hour` are overwritten by the QO record), stop hours 22, 23, 00,
01 decode to stored target hours 22, 23, 24, 25: when a stop's hour is
smaller than the running `last_hour` the trip's day offset increments and
the time is recomputed; the recomputation adds 24 hours per offset day,
capped at hour 99 (last conjunct, for every offset). -/
theorem c4_day_offset_rollover :
    (stopsSeq env0
        { in_trip := true, day_offset := 0, trip_id := 1, sequence := 0,
          last_hour := 0, stop_times := [] } c4Lines).stop_times
      = [{ trip_id := 1, arrival_time := "22:00:00",
           departure_time := "22:00:00", stop_id := "STOPAAAA0001",
           stop_sequence := 1, pickup_type := 0, drop_off_type := 1,
           timepoint := 1 },
         { trip_id := 1, arrival_time := "23:00:00",
           departure_time := "23:00:00", stop_id := "STOPAAAA0002",
           stop_sequence := 2, pickup_type := 0, drop_off_type := 0,
           timepoint := 0 },
         { trip_id := 1, arrival_time := "24:00:00",
           departure_time := "24:00:00", stop_id := "STOPAAAA0003",
           stop_sequence := 3, pickup_type := 0, drop_off_type := 0,
           timepoint := 0 },
         { trip_id := 1, arrival_time := "25:00:00",
           departure_time := "25:00:00", stop_id := "STOPAAAA0004",
           stop_sequence := 4, pickup_type := 1, drop_off_type := 0,
           timepoint := 1 }]
      ∧ ∀ d : Nat,
        time_str_to_time_tuple d "0100" false = (pyMin (1 + 24 * d) 99, 0) := by
  exact ⟨by decide, fun d => rfl⟩

/-- C5 (counterexample): the process-wide `sequence` counter is not reset
by a journey header, and the acceptance guard for QI/QT only checks
`sequence > 0`, not that this trip's own origin was seen. After a first
trip ends at sequence 3, a QI arriving right after the next trip's header
is accepted, so trip 2's first (and only) stored stop-time row carries
stop_sequence 4 — not 1. -/
theorem c5_counterexample :
    ((file env0 {} c5Lines).1.stop_times.filter
        (fun r => r.trip_id = 2)).map (fun r => r.stop_sequence) = [4] := by
  decide

/-- C5 (amended): a QO record stores sequence 1 and resets the counter to
1; an accepted QI or QT record (a trip must be open and the *process-wide*
counter positive — the counter survives trip boundaries, so a trip whose
first stop record is not its own QO can start above 1) stores exactly
`sequence + 1` and bumps the counter, so a trip whose stop records begin
with its own QO gets strictly increasing sequences 1, 2, 3, ... -/
theorem c5_amended :
    (∀ st : St, st.in_trip = true →
      ((okOf (stop_times env0 st c5qoLine)).stop_times).map
            (fun r => r.stop_sequence)
          = st.stop_times.map (fun r => r.stop_sequence) ++ [1]
        ∧ (okOf (stop_times env0 st c5qoLine)).sequence = 1)
    ∧ (∀ st : St, st.in_trip = true → 0 < st.sequence →
      ((okOf (stop_times env0 st c5qiLine)).stop_times).map
            (fun r => r.stop_sequence)
          = st.stop_times.map (fun r => r.stop_sequence) ++ [st.sequence + 1]
        ∧ (okOf (stop_times env0 st c5qiLine)).sequence = st.sequence + 1)
    ∧ (∀ st : St, st.in_trip = true → 0 < st.sequence →
      ((okOf (stop_times env0 st c5qtLine)).stop_times).map
            (fun r => r.stop_sequence)
          = st.stop_times.map (fun r => r.stop_sequence) ++ [st.sequence + 1]
        ∧ (okOf (stop_times env0 st c5qtLine)).sequence = st.sequence + 1) := by
  refine ⟨fun st h1 => ?_, fun st h1 h2 => ?_, fun st h1 h2 => ?_⟩
  · simp +decide [stop_times, c5qoLine, okOf, h1]
  · simp +decide [stop_times, c5qiLine, okOf, h1, h2]
    split_ifs <;> simp
  · simp +decide [stop_times, c5qtLine, okOf, h1, h2]
    split_ifs <;> simp

/-- C5 (witness): `c5_amended` applied at a concrete open-trip state with
counter 2: the QI row is stored with sequence 3. -/
theorem c5_amended_witness :
    ((okOf (stop_times env0 { in_trip := true, sequence := 2 }
        c5qiLine)).stop_times).map (fun r => r.stop_sequence) = [3]
      ∧ (okOf (stop_times env0 { in_trip := true, sequence := 2 }
          c5qiLine)).sequence = 3 := by
  have h := c5_amended.2.1 { in_trip := true, sequence := 2 } rfl (by decide)
  simpa using h

/-- C7: under `env0` (no school-term and no bank-holiday dates loaded) a
journey header carrying the school-holiday-only flag `H`, or the
bank-holidays-only flag `B`, leaves the whole state unchanged except for
closing the trip (`in_trip := false`): no trips row is inserted and the
trip id counter does not advance. While no trip is open, stop-time, note,
date-exception and repetition records are exact no-ops, so everything up
to the next valid journey header is ignored. -/
theorem c7_only_policy_excludes_trip :
    (∀ st : St, journey env0 st c7hLine = .ok { st with in_trip := false })
    ∧ (∀ st : St, journey env0 st c7bLine = .ok { st with in_trip := false })
    ∧ (∀ (env : Env) (st : St) (line : String), st.in_trip = false →
        stop_times env st line = .ok st)
    ∧ (∀ (st : St) (line : String), st.in_trip = false →
        journey_note st line = .ok st)
    ∧ (∀ (env : Env) (st : St) (line : String), st.in_trip = false →
        date_exceptions env st line = .ok st)
    ∧ (∀ (env : Env) (st : St) (line : String), st.in_trip = false →
        repetition env st line = .ok st) := by
  refine ⟨fun st => rfl, fun st => rfl,
    fun env st line h => ?_, fun st line h => ?_,
    fun env st line h => ?_, fun env st line h => ?_⟩
  · simp [stop_times, h]
  · simp [journey_note, h]
  · simp [date_exceptions, h]
  · simp [repetition, h]

/-- C7 (witness): `c7_only_policy_excludes_trip` at concrete inputs — the
H-header closes the trip, and a stop-time, note, date-exception and
repetition record are all no-ops on the closed-trip state. -/
theorem c7_witness :
    journey env0 c7StW c7hLine = .ok { c7StW with in_trip := false }
      ∧ stop_times env0 c7StW "QISTOPAAAA000223002300B   T0F0" = .ok c7StW
      ∧ journey_note c7StW "QNA      Via Aplace  " = .ok c7StW
      ∧ date_exceptions env0 c7StW "QE20200101202001010" = .ok c7StW
      ∧ repetition env0 c7StW "QRSTOP-REF0008234543    101-43BIGBUS  "
        = .ok c7StW := by
  exact ⟨c7_only_policy_excludes_trip.1 c7StW,
    c7_only_policy_excludes_trip.2.2.1 env0 c7StW _ rfl,
    c7_only_policy_excludes_trip.2.2.2.1 c7StW _ rfl,
    c7_only_policy_excludes_trip.2.2.2.2.1 env0 c7StW _ rfl,
    c7_only_policy_excludes_trip.2.2.2.2.2 env0 c7StW _ rfl⟩

/-- C8 (counterexample): a QO processed while the previous trip left
`day_offset = 1` stores origin hour 46, not the record's HH digits 22: the
arrival tuple is computed *before* the QO branch resets the day offset to
0, so the stale offset is baked into the stored origin time. -/
theorem c8_counterexample :
    ((okOf (stop_times env0
        { in_trip := true, day_offset := 1, trip_id := 3 }
        c8qoLine)).stop_times).map
          (fun r => (r.arrival_time, r.departure_time))
        = [("46:00:00", "46:00:00")]
      ∧ pySlice c8qoLine 14 18 = "2200" := by
  decide

/-- C8 (amended): a QO record does set `stop_sequence := 1`,
`day_offset := 0` and `last_hour` to the stored hour, and marks the origin
drop-off-only; but the stored arrival/departure are computed with the day
offset still in force from the previously processed trip, so the origin
hour is `min(HH + 24*d, 99)` for inherited offset `d` — it equals the HH
digits exactly when `d = 0`. -/
theorem c8_amended (d : Nat) :
    stop_times env0 { in_trip := true, day_offset := d, trip_id := 3 }
        c8qoLine
      = .ok { in_trip := true, trip_id := 3, pre_times := false,
              sequence := 1, day_offset := 0,
              last_hour := pyMin (22 + 24 * (d : Int)) 99,
              stop_used := ["CCSTOPCC0001"],
              stop_times := [c8Row d] } := by
  rfl

/-- C9 (counterexample): `sanitize_date` returns the non-numeric
8-character string "ABCDEFGH" unchanged — its `try` body never parses the
digits, so nothing can raise `ValueError`, and only the all-blank and
all-nines strings are substituted. -/
theorem c9_counterexample :
    sanitize_date env0 "ABCDEFGH" true = .ok "ABCDEFGH" := by
  rfl

/-- C9 (amended): unparseable *time* fields decode to (0,0) and
unparseable *grid* fields to 0.0, processing continuing; but
`sanitize_date` substitutes its default only for the blank and all-nines
8-character strings — every other 8-character string, numeric or not, is
returned unchanged, and a string of any other length raises (the bare
`raise` produces `RuntimeError`, which `except ValueError` does not catch),
escalating to a per-file failure rather than a recoverable field error. -/
theorem c9_amended :
    (∀ (d : Nat) (s : String), pyInt? (pySlice s 0 2) = none →
      time_str_to_time_tuple d s false = (0, 0))
    ∧ (∀ (d : Nat) (s : String), pyInt? (pySlice s 2 4) = none →
      time_str_to_time_tuple d s false = (0, 0))
    ∧ (∀ (g : Nat) (s : String),
      pyFloat? (pyStrip s ++ ⟨List.replicate (8 - g) '0'⟩) = none →
      sanitize_grid_ref g s = 0)
    ∧ (∀ (env : Env) (s : String) (c : Bool), pyLen s = 8 →
      s ≠ "        " → s ≠ "99999999" → sanitize_date env s c = .ok s)
    ∧ (∀ (env : Env) (s : String) (c : Bool), pyLen s ≠ 8 →
      sanitize_date env s c = .error ()) := by
  refine ⟨fun d s h => ?_, fun d s h => ?_, fun g s h => ?_,
    fun env s c h8 hb hn => ?_, fun env s c h8 => ?_⟩
  · rcases h2 : pyInt? (pySlice s 2 4) with _ | v <;>
      simp [time_str_to_time_tuple, h, h2]
  · simp [time_str_to_time_tuple, h]
  · simp [sanitize_grid_ref, h]
  · simp [sanitize_date, h8, hb, hn]
  · simp [sanitize_date, h8]

/-- C9 (witness): `c9_amended` at concrete inputs — a non-numeric HHMM
time, a non-numeric grid reference, the unchanged 8-character string, and
the raising short string. -/
theorem c9_witness :
    time_str_to_time_tuple 0 "xx15" false = (0, 0)
      ∧ sanitize_grid_ref 6 "abc" = 0
      ∧ sanitize_date env0 "2020010a" true = .ok "2020010a"
      ∧ sanitize_date env0 "2020" true = .error () := by
  exact ⟨c9_amended.1 0 "xx15" (by decide),
    c9_amended.2.2.1 6 "abc" (by decide),
    c9_amended.2.2.2.1 env0 "2020010a" true (by decide) (by decide)
      (by decide),
    c9_amended.2.2.2.2 env0 "2020" true (by decide)⟩

/-- C10 (counterexample): before the QE record, trip 1's queued service
entry has no exception dates; the QE is processed while trip 2 (the QR
clone) is current, yet trip 1's queued entry changes too — `repetition`
binds the clone's `self.service` entry to the *same* dict, so the QE write
lands in both. -/
theorem c10_counterexample :
    c10StB.trip_id = 2
      ∧ (queuedEntry c10StA 1).map (fun e => e.calendar_dates) = some none
      ∧ (queuedEntry c10StB 1).map (fun e => e.calendar_dates)
        = some (some [("20200101", 2)])
      ∧ queuedEntry c10StB 1 = queuedEntry c10StB 2 := by
  decide

/-- Lemma: `lookupA` only sees the first binding of a key, so appending entries
preserves existing lookups. -/
theorem lookupA_append_some {κ α : Type} [DecidableEq κ] (k : κ)
    (l l' : List (κ × α)) (v : α) (h : lookupA k l = some v) :
    lookupA k (l ++ l') = some v := by
  induction l with
  | nil => simp [lookupA] at h
  | cons p rest ih =>
      obtain ⟨k', v'⟩ := p
      by_cases hk : k' = k <;> simp_all [lookupA]

/-- C10 (amended): a QE record mutates only the heap cell of the *current*
trip's service entry (allocating a fresh cell if the trip has none), so the
queued entry of any trip whose cell is a different one is unchanged; a trip
sharing the current trip's cell — as after a QR repetition, which aliases
rather than copies — changes identically (see the counterexample). -/
theorem c10_amended (env : Env) (st : St) (line : String) (t r : Nat)
    (hmap : lookupA t st.serviceMap = some r)
    (hlt : r < st.heap.length)
    (hne : lookupA st.trip_id st.serviceMap ≠ some r) :
    queuedEntry (okOf (date_exceptions env st line)) t = queuedEntry st t := by
  by_cases hg : 19 ≤ pyLen line ∧ st.in_trip
  · rw [date_exceptions, if_pos hg]
    rcases e1 : sanitize_date env (pySlice line 2 10) true with _ | sd
    · rfl
    rcases e2 : sanitize_date env (pySlice line 10 18) false with _ | ed
    · rfl
    simp only
    rcases hm : lookupA st.trip_id st.serviceMap with _ | r0
    · have hlr : st.heap.length ≠ r := by omega
      split_ifs with hact hlen1 hlen2 <;>
        simp only [okOf, queuedEntry] <;>
        rw [lookupA_append_some t st.serviceMap _ r hmap, hmap] <;>
        simp only [Option.some_bind] <;>
        try rw [List.get?_set_ne _ _ hlr]
      all_goals rw [List.get?_append hlt]
    · have hner : r0 ≠ r := fun hrr => hne (by rw [hm, hrr])
      split_ifs with hact hlen1 hlen2 <;>
        simp only [okOf, queuedEntry] <;>
        rw [hmap] <;>
        simp only [Option.some_bind] <;>
        try rw [List.get?_set_ne _ _ hner]
      all_goals rfl
  · rw [date_exceptions, if_neg hg]
    rfl

/-- C10 (witness): `c10_amended` on the non-aliased two-trip state — a QE
processed while trip 2 is current leaves trip 1's queued entry intact. -/
theorem c10_amended_witness :
    queuedEntry (okOf (date_exceptions env0 c10StC "QE20200101202001010")) 1
      = queuedEntry c10StC 1 := by
  exact c10_amended env0 c10StC "QE20200101202001010" 1 0 (by decide)
    (by decide) (by decide)

/-- C6 (counterexample): after file 1 the stop row holds the real name
"Foo" (with placeholder coordinates); file 2 *overwrites it with the
placeholder name "Unknown"*, because the re-write test accepts any row
with zero coordinates and the second file's cache has no name. And the
route row committed with NULL long name is never upgraded even though
file 2 caches a real description — the source's `route_long_name=NULL`
SQL match selects nothing — the id is only recorded as a duplicate. -/
theorem c6_counterexample :
    c6StA.stops = [{ stop_id := "STOPREF00001", stop_name := "Foo",
                     stop_lat := 0, stop_lon := 0 }]
      ∧ c6StB.stops = [{ stop_id := "STOPREF00001", stop_name := "Unknown",
                         stop_lat := 54, stop_lon := -5 }]
      ∧ c6StB.routes.map (fun r => (r.route_id, r.route_long_name))
        = [("OP_101", none)]
      ∧ c6StB.route_duplicate = ["OP_101"] := by
  decide

/-- Every update `stopsStep` adds targets an id from `stopEmptyIds`. -/
theorem stopsStep_update_mem (env : Env) (st : St)
    (acc : Option Nat × List StopRow × List (String × ℚ × ℚ × String))
    (a : String) :
    ∀ u ∈ (stopsStep env st acc a).2.2,
      u.2.2.2 ∈ stopEmptyIds st ∨ u ∈ acc.2.2 := by
  obtain ⟨gf, ins, upd⟩ := acc
  intro u hu
  rcases hres : stopResolve env gf st a with ⟨gf', nm, lat, lon⟩
  simp only [stopsStep, hres] at hu
  split_ifs at hu with h1 h2 h3 <;> simp only at hu
  all_goals try (right; exact hu)
  rcases List.mem_append.mp hu with h | h
  · right; exact h
  · left
    simp only [List.mem_singleton] at h
    subst h
    exact h3.1

/-- Folding `stopsStep` preserves the update-targets-placeholder
invariant. -/
theorem stopsFold_update_mem (env : Env) (st : St) (l : List String) :
    ∀ acc : Option Nat × List StopRow × List (String × ℚ × ℚ × String),
      (∀ u ∈ acc.2.2, u.2.2.2 ∈ stopEmptyIds st) →
      ∀ u ∈ (l.foldl (stopsStep env st) acc).2.2, u.2.2.2 ∈ stopEmptyIds st := by
  induction l with
  | nil => exact fun acc hacc u hu => hacc u hu
  | cons a l ih =>
      intro acc hacc u hu
      refine ih (stopsStep env st acc a) ?_ u hu
      intro v hv
      rcases stopsStep_update_mem env st acc a v hv with h | h
      · exact h
      · exact hacc v h

/-- C6 (amended): the end-of-file flush never modifies a row it does not
consider a placeholder — an agency row is updated only if its stored name
is "Unknown Operator", a stop row only if its stored name is "Unknown" *or*
its stored coordinates are (0,0) (which is what lets a real name with zero
coordinates be replaced, even by "Unknown"), and a route row is never
updated at all (the NULL-long-name match selects nothing; an existing route
id is only recorded in the cross-file duplication list). -/
theorem c6_amended :
    (∀ (env : Env) (st : St) (u : String × String × Option String × String),
      u ∈ agencyUpdates env st → u.2.2.2 ∈ agencyEmptyIds st)
    ∧ (∀ st : St, routeUpdates st = [])
    ∧ (∀ (env : Env) (st : St) (u : String × ℚ × ℚ × String),
      u ∈ (stopsPlan env st).2.2 → u.2.2.2 ∈ stopEmptyIds st) := by
  refine ⟨fun env st u hu => ?_, fun st => ?_, fun env st u hu => ?_⟩
  · rw [agencyUpdates, List.mem_filterMap] at hu
    obtain ⟨id, hid, hf⟩ := hu
    simp only at hf
    split_ifs at hf with h1 h2 h3 <;>
      first
        | (injection hf with hf; subst hf; exact h3.2)
        | exact absurd hf (by simp)
  · rw [routeUpdates, List.filterMap_eq_nil]
    intro id _
    simp only [routeEmptyIds]
    rcases lookupA id st.route_cache with _ | rc
    · split_ifs <;> rfl
    · rcases routeLongName rc with _ | nm <;> split_ifs <;>
        first | rfl | simp_all
  · exact stopsFold_update_mem env st st.stop_used (st.grid_figures, [], [])
      (fun v hv => absurd hv (List.not_mem_nil v)) u hu

/-- C6 (witness): `c6_amended` at `c6WSt` — the one agency update targets
the placeholder-named row, the one stop update targets the zero-coordinate
row, and the route update list is empty. -/
theorem c6_amended_witness :
    (("Real", "https://www.google.com/search?q=Real", (none : Option String),
        "OP").2.2.2 ∈ agencyEmptyIds c6WSt)
      ∧ routeUpdates c6WSt = []
      ∧ (("Bar", (0 : ℚ), (0 : ℚ), "S1").2.2.2 ∈ stopEmptyIds c6WSt) := by
  exact ⟨c6_amended.1 env0 c6WSt _ (by decide),
    c6_amended.2.1 c6WSt,
    c6_amended.2.2 env0 c6WSt _ (by decide)⟩

/-! Model validation: the embedding reproduces the repository's own unit
tests (`tests/test_atcocif.py`), evaluated on the tests' exact inputs. -/

/-- Validation of `test_calendar_exception_school_days_only`: school-term
dates 6-8 Jan 2020, Mon/Wed/Fri pattern, remove the non-term days. -/
theorem model_matches_test_school_days_only :
    calendar_exception_list
        (some [dnOf 2020 1 6, dnOf 2020 1 7, dnOf 2020 1 8])
        [1, 0, 1, 0, 1, 0, 0] "20200101" "20200112" 2 true
      = [("20200101", 2), ("20200103", 2), ("20200110", 2)] := by
  decide

/-- Validation of `test_calendar_exception_school_holiday_only` and
`test_calendar_exception_bank_holiday_only`. -/
theorem model_matches_test_holiday_exceptions :
    calendar_exception_list
        (some [dnOf 2020 1 6, dnOf 2020 1 7, dnOf 2020 1 8])
        [1, 0, 1, 0, 1, 0, 0] "20200101" "20200112" 2 false
      = [("20200106", 2), ("20200108", 2)]
    ∧ calendar_exception_list (some [dnOf 2020 1 1, dnOf 2020 1 2]) []
        "20200101" "20200112" 1 false
      = [("20200101", 1), ("20200102", 1)] := by
  decide

/-- Validation of `test_line_journey_trip` and `test_line_journey_calendar`:
the QS test line yields route `OP_101`, running board `101-42`, inbound
direction, and the Mon/Wed/Fri calendar for dates 20200101..20200112. -/
theorem model_matches_test_line_journey :
    (okOf (journey env0 { file_num := 1 } qsLine)).trips.map
        (fun r => (r.route_id, r.trip_short_name, r.direction_id))
      = [("OP_101", "101-42", 1)]
    ∧ (queuedEntry (okOf (journey env0 { file_num := 1 } qsLine)) 1).map
        (fun e => e.calendar)
      = some (some { days := [1, 0, 1, 0, 1, 0, 0],
                     start_date := "20200101", end_date := "20200112" }) := by
  decide

/-- Validation of `test_stop_times`: the five QO/QI/QT test lines decode to
the asserted times, sequences, pickup/drop-off flags and timepoints,
including the 00:25 → 24:25 rollover at the final stop. -/
theorem model_matches_test_stop_times :
    (stopsSeq env0 (okOf (journey env0 { file_num := 1 } qsLine))
        ["QOSTOP-REF00032215A  T1F1",
         "QISTOP-REF000422552300B   T0F0",
         "QISTOP-REF000523402341P   T0F0",
         "QISTOP-REF000623502350S   T1F0",
         "QTSTOP-REF00070025A  T1F0"]).stop_times
      = [{ trip_id := 1, arrival_time := "22:15:00",
           departure_time := "22:15:00", stop_id := "STOP-REF0003",
           stop_sequence := 1, pickup_type := 0, drop_off_type := 1,
           timepoint := 1 },
         { trip_id := 1, arrival_time := "22:55:00",
           departure_time := "23:00:00", stop_id := "STOP-REF0004",
           stop_sequence := 2, pickup_type := 0, drop_off_type := 0,
           timepoint := 0 },
         { trip_id := 1, arrival_time := "23:40:00",
           departure_time := "23:41:00", stop_id := "STOP-REF0005",
           stop_sequence := 3, pickup_type := 0, drop_off_type := 1,
           timepoint := 0 },
         { trip_id := 1, arrival_time := "23:50:00",
           departure_time := "23:50:00", stop_id := "STOP-REF0006",
           stop_sequence := 4, pickup_type := 1, drop_off_type := 0,
           timepoint := 1 },
         { trip_id := 1, arrival_time := "24:25:00",
           departure_time := "24:25:00", stop_id := "STOP-REF0007",
           stop_sequence := 5, pickup_type := 1, drop_off_type := 0,
           timepoint := 1 }] := by
  decide

/-- Validation of `test_repetition`: the QR shifts the prior trip's
23:15/23:55 stops by 30 minutes to 23:45/24:25 under the new trip id. -/
theorem model_matches_test_repetition :
    (okOf (runBody env0 { file_num := 1 }
        [qsLine,
         "QOSTOP-REF00082315A  T1F1",
         "QTSTOP-REF00092355A  T1F0",
         "QRSTOP-REF0008234543    101-43BIGBUS  "])).stop_times.map
      (fun r => (r.trip_id, r.arrival_time, r.departure_time,
        r.stop_sequence))
      = [(1, "23:15:00", "23:15:00", 1), (1, "23:55:00", "23:55:00", 2),
         (2, "23:45:00", "23:45:00", 1), (2, "24:25:00", "24:25:00", 2)] := by
  decide

/-- Validation of the spec's sanitizer example: an empty operator id on
line 5 of file 2 yields `unknown_2` without positional fallback (stable
across the file) and `unknown_2_5` with it. -/
theorem model_matches_sanitizer_example :
    sanitize_id env0 2 5 "" false 0 = "unknown_2"
      ∧ sanitize_id env0 2 99 "" false 0 = "unknown_2"
      ∧ sanitize_id env0 2 5 "" true 0 = "unknown_2_5" := by
  decide

end Atco
